import Mathlib

/-!
Verification development for the Sentinel observation/fusion/dispatch pipeline.

Shallow embedding of the core program pieces:
* risk engine                 (packages/algorithms/src/fusion.py)
* triangulation engine        (packages/algorithms/src/triangulation.py)
* isochrone generation        (packages/algorithms/src/spread_modeling.py)
* detections and missions API (apps/apigw/app/routers/detections.py, missions.py,
                               apps/apigw/app/models.py)

Python floats are modelled as rationals, Python strings as Lean strings, database
rows as structures, and the mission table as a list of rows.  Side channels that
do not decide any verified property (event-bus broadcast, MQTT publish, the
quality_metrics diagnostic dictionary) are omitted.
-/

namespace Sentinel

/-! ### Risk engine: fusion.py -/

/-- Structure EnvironmentalData of fusion.py (environmental conditions of one grid cell). -/
structure EnvironmentalData where
  latitude : ℚ
  longitude : ℚ
  timestamp : String
  fuel_model : Int
  slope_deg : ℚ
  aspect_deg : ℚ
  canopy_cover : ℚ
  soil_moisture : ℚ
  fuel_moisture : ℚ
  temperature_c : ℚ
  relative_humidity : ℚ
  wind_speed_mps : ℚ
  wind_direction_deg : ℚ
  elevation_m : ℚ
  lightning_strikes_24h : Int
  historical_ignitions : Int
deriving DecidableEq, Repr

/-- Contributing-factors dictionary built by heuristic risk scoring; the five keys
written by the source are modelled as named fields. -/
structure ContributingFactors where
  fuel_model : ℚ
  slope : ℚ
  moisture : ℚ
  weather : ℚ
  history : ℚ
deriving DecidableEq, Repr

/-- Structure RiskScore of fusion.py. -/
structure RiskScore where
  latitude : ℚ
  longitude : ℚ
  risk_score : ℚ
  confidence : ℚ
  contributing_factors : ContributingFactors
  timestamp : String
deriving DecidableEq, Repr

/-- Lookup fuel_risk.get(fuel_model, 0.5) over the Anderson 13 table literal of
the method heuristic risk score in fusion.py. -/
def fuelRisk (fm : Int) : ℚ :=
  if fm = 1 then 1/10
  else if fm = 2 then 2/10
  else if fm = 3 then 3/10
  else if fm = 4 then 4/10
  else if fm = 5 then 5/10
  else if fm = 6 then 6/10
  else if fm = 7 then 7/10
  else if fm = 8 then 8/10
  else if fm = 9 then 9/10
  else if fm = 10 then 8/10
  else if fm = 11 then 6/10
  else if fm = 12 then 7/10
  else if fm = 13 then 8/10
  else 1/2

/-- Slope term: min(1.0, slope_deg / 45.0). -/
def slopeRisk (e : EnvironmentalData) : ℚ := min 1 (e.slope_deg / 45)

/-- Moisture term: (1 - soil_moisture) * 0.5 + (1 - fuel_moisture) * 0.5. -/
def moistureRisk (e : EnvironmentalData) : ℚ :=
  (1 - e.soil_moisture) * (1/2) + (1 - e.fuel_moisture) * (1/2)

/-- Temperature term: min(1.0, max(0.0, (temperature_c - 20) / 30.0)). -/
def tempRisk (e : EnvironmentalData) : ℚ := min 1 (max 0 ((e.temperature_c - 20) / 30))

/-- Humidity term: (100 - relative_humidity) / 100.0. -/
def humidityRisk (e : EnvironmentalData) : ℚ := (100 - e.relative_humidity) / 100

/-- Wind term: min(1.0, wind_speed_mps / 20.0). -/
def windRisk (e : EnvironmentalData) : ℚ := min 1 (e.wind_speed_mps / 20)

/-- Weather term: (temp_risk + humidity_risk + wind_risk) / 3.0. -/
def weatherRisk (e : EnvironmentalData) : ℚ :=
  (tempRisk e + humidityRisk e + windRisk e) / 3

/-- History term: min(1.0, (lightning_strikes_24h + historical_ignitions) / 10.0). -/
def historyRisk (e : EnvironmentalData) : ℚ :=
  min 1 (((e.lightning_strikes_24h : ℚ) + (e.historical_ignitions : ℚ)) / 10)

/-- Method heuristic risk score of fusion.py: weighted sum of the five terms,
clipped to the unit interval, with a flat confidence of 0.7 and the five
contributing factors. -/
def heuristicRiskScore (e : EnvironmentalData) : RiskScore :=
  let risk : ℚ :=
    fuelRisk e.fuel_model * (3/10) + slopeRisk e * (2/10) + moistureRisk e * (2/10)
      + weatherRisk e * (2/10) + historyRisk e * (1/10)
  { latitude := e.latitude
    longitude := e.longitude
    risk_score := min 1 (max 0 risk)
    confidence := 7/10
    contributing_factors :=
      { fuel_model := fuelRisk e.fuel_model
        slope := slopeRisk e
        moisture := moistureRisk e
        weather := weatherRisk e
        history := historyRisk e }
    timestamp := e.timestamp }

/-- Method calculate confidence of fusion.py: a 1.0 baseline reduced
multiplicatively for missing or suspect inputs.  In the source this method is
reached only on the trained branch of calculate risk score. -/
def calcConfidence (e : EnvironmentalData) : ℚ :=
  let c : ℚ := 1
  let c := if e.fuel_model = 0 then c * (8/10) else c
  let c := if e.soil_moisture = 0 then c * (9/10) else c
  let c := if e.fuel_moisture = 0 then c * (9/10) else c
  let c := if e.wind_speed_mps = 0 then c * (8/10) else c
  let c := if e.temperature_c < -20 ∨ e.temperature_c > 60 then c * (7/10) else c
  let c := if e.relative_humidity < 5 ∨ e.relative_humidity > 100 then c * (7/10) else c
  c

/-- Method calculate risk score of fusion.py in the untrained state
(self.is_trained = False): the guard at the top of the method returns the
heuristic score directly. -/
def calculateRiskScoreUntrained (e : EnvironmentalData) : RiskScore :=
  heuristicRiskScore e

/-! ### Missions and detections API: models.py, routers/missions.py, routers/detections.py -/

/-- Row of the missions table (class Mission of models.py) restricted to the
columns the routers read and write; mission_id carries a unique constraint. -/
structure MissionRow where
  mission_id : String
  type : String
  priority : String
  description : Option String
  status : String
  lat : ℚ
  lng : ℚ
  radius : ℚ
  waypoints : Option (List (ℚ × ℚ))
  assets : Option (List String)
  progress : Int
  estimated_duration : Option Int
deriving DecidableEq, Repr

/-- Structured error payload of an HTTPException raised by a router. -/
structure ApiError where
  status_code : Nat
  detail : String
deriving DecidableEq, Repr

/-- Class MissionLocation of routers/missions.py. -/
structure MissionLocation where
  lat : ℚ
  lng : ℚ
  radius : Option ℚ
deriving DecidableEq, Repr

/-- Class MissionIn of routers/missions.py. -/
structure MissionIn where
  mission_id : Option String
  type : String
  priority : String
  description : Option String
  location : MissionLocation
  waypoints : Option (List (ℚ × ℚ))
  assets : Option (List String)
deriving DecidableEq, Repr

/-- Class MissionOut of routers/missions.py (location flattened into lat, lng,
radius; the created-at and updated-at timestamps are not modelled). -/
structure MissionOut where
  id : String
  type : String
  status : String
  priority : String
  lat : ℚ
  lng : ℚ
  radius : ℚ
  description : String
  progress : Int
  estimatedDuration : Option Int
deriving DecidableEq, Repr

/-- Class MissionUpdateIn of routers/missions.py. -/
structure MissionUpdateIn where
  status : Option String
  progress : Option Int
  description : Option String
  estimatedDuration : Option Int
deriving DecidableEq, Repr

/-- MissionOut built from a stored row, as both list_missions and
update_mission build it: description defaults to the empty string when the
column is null. -/
def toMissionOut (row : MissionRow) : MissionOut :=
  { id := row.mission_id
    type := row.type
    status := row.status
    priority := row.priority
    lat := row.lat
    lng := row.lng
    radius := row.radius
    description := row.description.getD ""
    progress := row.progress
    estimatedDuration := row.estimated_duration }

/-- Query of the missions table by mission_id with first(), as the routers do. -/
def findMission (missions : List MissionRow) (mid : String) : Option MissionRow :=
  missions.find? (fun r => r.mission_id == mid)

/-- ORM commit of a mutation of the row fetched by first(): exactly the first
row with the given mission_id is replaced. -/
def replaceFirst : List MissionRow → String → MissionRow → List MissionRow
  | [], _, _ => []
  | r :: rs, mid, row =>
      if r.mission_id == mid then row :: rs else r :: replaceFirst rs mid row

/-- Field-by-field conditional assignment of update_mission: each field of the
body that is present overwrites the row, absent fields leave it alone. -/
def applyUpdate (row : MissionRow) (body : MissionUpdateIn) : MissionRow :=
  let row := match body.status with
    | some s => { row with status := s }
    | none => row
  let row := match body.progress with
    | some p => { row with progress := p }
    | none => row
  let row := match body.description with
    | some d => { row with description := some d }
    | none => row
  match body.estimatedDuration with
  | some n => { row with estimated_duration := some n }
  | none => row

/-- Handler update_mission of routers/missions.py (PATCH on one mission):
404 when the mission_id is unknown, otherwise the supplied fields are stored
verbatim and the updated row is echoed back.  The returned pair carries the
resulting missions table and the HTTP outcome. -/
def updateMission (mid : String) (body : MissionUpdateIn) (missions : List MissionRow) :
    List MissionRow × Except ApiError MissionOut :=
  match findMission missions mid with
  | none => (missions, Except.error ⟨404, "Mission not found"⟩)
  | some row =>
      let row := applyUpdate row body
      (replaceFirst missions mid row, Except.ok (toMissionOut row))

/-- Handler create_mission of routers/missions.py.  The row is built and
committed; the unique constraint on missions.mission_id (models.py) makes the
commit fail on a duplicate, and the catch-all except-clause of the handler
turns any exception into an HTTP 500.  genId stands for the generated
recon-timestamp-uuid identifier used when the client supplies none. -/
def createMission (genId : String) (m : MissionIn) (missions : List MissionRow) :
    List MissionRow × Except ApiError MissionOut :=
  let mid := m.mission_id.getD genId
  let row : MissionRow :=
    { mission_id := mid
      type := m.type
      priority := m.priority
      description := some (m.description.getD "")
      status := "pending"
      lat := m.location.lat
      lng := m.location.lng
      radius := m.location.radius.getD 200
      waypoints := m.waypoints
      assets := m.assets
      progress := 0
      estimated_duration := none }
  if missions.any (fun r => r.mission_id == mid) then
    (missions, Except.error ⟨500, "Failed to create mission"⟩)
  else
    (missions ++ [row], Except.ok (toMissionOut row))

/-- First stage of the background coroutine of create_mission: after the first
sleep the row is fetched again and, when still present, its status is set to
active unconditionally. -/
def advanceToActive (mid : String) (missions : List MissionRow) : List MissionRow :=
  match findMission missions mid with
  | none => missions
  | some row => replaceFirst missions mid { row with status := "active" }

/-- Second stage of the background coroutine of create_mission: after the
second sleep the row is fetched again and, when still present, its status is
set to completed and its progress to 100, unconditionally. -/
def advanceToCompleted (mid : String) (missions : List MissionRow) : List MissionRow :=
  match findMission missions mid with
  | none => missions
  | some row => replaceFirst missions mid { row with status := "completed", progress := 100 }

/-- Class DetectionIn of schemas/detection.py restricted to the fields
create_detection reads (the generated id and the wind vector are unused there). -/
structure DetectionIn where
  source_id : String
  timestamp : String
  type : String
  lat : ℚ
  lon : ℚ
  alt : Option ℚ
  confidence : ℚ
  image_refs : Option (List String)
  heat_index : Option ℚ
deriving DecidableEq, Repr

/-- Row of the detections table as written by create_detection. -/
structure DetectionRow where
  device_id : String
  timestamp : String
  type : String
  latitude : ℚ
  longitude : ℚ
  confidence : ℚ
  media_ref : Option String
  source : String
deriving DecidableEq, Repr

/-- Persistent state touched by the detections router: the detections table and
the missions table. -/
structure ApiState where
  detections : List DetectionRow
  missions : List MissionRow
deriving DecidableEq, Repr

/-- Detection row persisted by create_detection. -/
def detectionRowOf (body : DetectionIn) : DetectionRow :=
  { device_id := body.source_id
    timestamp := body.timestamp
    type := body.type
    latitude := body.lat
    longitude := body.lon
    confidence := body.confidence
    media_ref := match body.image_refs with
      | some (r :: _) => some r
      | _ => none
    source := "edge" }

/-- Auto-synthesized mission of create_detection; genId stands for the
generated auto-timestamp-uuid identifier. -/
def autoMission (genId : String) (body : DetectionIn) : MissionRow :=
  { mission_id := genId
    type := "ember_damp"
    priority := "high"
    description := some "AUTO: respond to detection"
    status := "pending"
    lat := body.lat
    lng := body.lon
    radius := 200
    waypoints := none
    assets := none
    progress := 0
    estimated_duration := none }

/-- Handler create_detection of routers/detections.py: persist the detection,
then auto-create a mission exactly when the detection type is fire, hotspot or
smoke and the confidence reaches 0.7.  Track bookkeeping and event broadcast do
not touch the two tables and are omitted. -/
def createDetection (genId : String) (body : DetectionIn) (st : ApiState) : ApiState :=
  let st := { st with detections := st.detections ++ [detectionRowOf body] }
  if body.type ∈ (["fire", "hotspot", "smoke"] : List String) ∧ body.confidence ≥ 7/10 then
    { st with missions := st.missions ++ [autoMission genId body] }
  else
    st

/-! ### Triangulation engine: packages/algorithms/src/triangulation.py

The combinatorial pipeline (filtering, candidate assembly, RANSAC search,
confidence and uncertainty scoring, best-candidate selection) is translated
directly.  The four purely numeric subroutines that evaluate floating-point
trigonometry or run the scipy optimizer are abstracted as the fields of a
GeoOracle; every theorem below either holds for all oracles or instantiates
one concretely. -/

/-- Dataclass BearingObservation of triangulation.py. -/
structure BearingObs where
  device_id : String
  latitude : ℚ
  longitude : ℚ
  altitude : ℚ
  camera_heading : ℚ
  camera_pitch : ℚ
  bearing : ℚ
  confidence : ℚ
  detection_id : String
deriving DecidableEq, Repr

/-- Dataclass TriangulationResult of triangulation.py (the quality_metrics
diagnostic dictionary is not modelled). -/
structure TriResult where
  latitude : ℚ
  longitude : ℚ
  altitude : ℚ
  confidence : ℚ
  uncertainty_meters : ℚ
  observation_ids : List String
  method : String
deriving DecidableEq, Repr

/-- Numeric subroutines of the engine that are floating-point trigonometry or
the scipy optimizer, abstracted as functions. -/
structure GeoOracle where
  /-- Composition of the coordinate conversions with the ray closest-approach
  solver for the first two observations, returning the estimated lat, lon, alt;
  none when the rays are parallel or the closest approach exceeds 1000 m. -/
  rayIntersect : BearingObs → BearingObs → Option (ℚ × ℚ × ℚ)
  /-- BFGS minimization of the weighted squared bearing error, seeded at the
  given point; some solution when scipy reports success, none otherwise. -/
  minimizeLS : ℚ × ℚ × ℚ → List BearingObs → Option (ℚ × ℚ × ℚ)
  /-- Spherical bearing from the first point to the second. -/
  calcBearing : ℚ → ℚ → ℚ → ℚ → ℚ
  /-- Haversine distance between two observation positions. -/
  baselineDistance : BearingObs → BearingObs → ℚ

/-- Method angle difference of triangulation.py: the while loops normalize the
difference into the interval from -180 to 180 before taking the absolute
value; the closed floor form below lands in the same residue class and the
same interval up to the sign of the 180 endpoint, which the absolute value
erases. -/
def angleDifference (a b : ℚ) : ℚ :=
  let d := a - b
  |d - 360 * ((d + 180) / 360).floor|

/-- Insertion of a rational into a sorted list, ascending. -/
def insertSorted (x : ℚ) : List ℚ → List ℚ
  | [] => [x]
  | y :: ys => if x ≤ y then x :: y :: ys else y :: insertSorted x ys

/-- Ascending sort of a list of rationals (bearings.sort() of the source). -/
def sortAsc (l : List ℚ) : List ℚ := l.foldr insertSorted []

/-- Method calculate angular spread of triangulation.py: sort the bearings,
take the wrap-around gaps between consecutive ones, return the largest gap.
The fold starts at 0, which is sound because every wrapped gap is nonnegative,
matching the max call of the source over the nonempty gap list. -/
def angularSpread (obs : List BearingObs) : ℚ :=
  if obs.length < 2 then 0
  else
    let bs := sortAsc (obs.map (fun o => o.bearing))
    let n := bs.length
    let gaps := (List.range n).map (fun i =>
      let g := bs.getD ((i + 1) % n) 0 - bs.getD i 0
      if g < 0 then g + 360 else g)
    gaps.foldl max 0

/-- Placeholder observation used only for the head and last defaults below; the
guards of the source guarantee those defaults are never reached. -/
def dummyObs : BearingObs :=
  { device_id := "", latitude := 0, longitude := 0, altitude := 0,
    camera_heading := 0, camera_pitch := 0, bearing := 0, confidence := 0,
    detection_id := "" }

/-- Method calculate confidence of triangulation.py: weighted blend of mean
observation confidence, angular spread, baseline distance and observation
count, clipped to the unit interval. -/
def triCalcConfidence (G : GeoOracle) (obs : List BearingObs) : ℚ :=
  if obs.length = 0 then 0
  else
    let base := (obs.map (fun o => o.confidence)).sum / (obs.length : ℚ)
    let spreadFactor := min 1 (angularSpread obs / 90)
    let baselineFactor :=
      if obs.length ≥ 2 then
        min 1 (G.baselineDistance (obs.headD dummyObs) (obs.getLastD dummyObs) / 10000)
      else 1/2
    let countFactor := min 1 ((obs.length : ℚ) / 4)
    min 1 (max 0 (base * (4/10) + spreadFactor * (3/10)
      + baselineFactor * (2/10) + countFactor * (1/10)))

/-- Method calculate uncertainty of triangulation.py. -/
def triCalcUncertainty (obs : List BearingObs) : ℚ :=
  if obs.length < 2 then 1000
  else
    let s := angularSpread obs
    if s < 30 then 2000 else if s < 60 then 1000 else 500

/-- Method simple intersection of triangulation.py: intersect the rays of the
first two observations; confidence and uncertainty are scored on those two
observations only. -/
def simpleIntersection (G : GeoOracle) (obs : List BearingObs) : Option TriResult :=
  match obs with
  | o1 :: o2 :: _ =>
      match G.rayIntersect o1 o2 with
      | none => none
      | some (lat, lon, alt) =>
          some { latitude := lat
                 longitude := lon
                 altitude := alt
                 confidence := triCalcConfidence G (obs.take 2)
                 uncertainty_meters := triCalcUncertainty (obs.take 2)
                 observation_ids := [o1.detection_id, o2.detection_id]
                 method := "simple_intersection" }
  | _ => none

/-- Method count inliers of triangulation.py: observations whose back-projected
bearing differs from the observed one by less than 5 degrees. -/
def countInliers (G : GeoOracle) (r : TriResult) (obs : List BearingObs) : List BearingObs :=
  obs.filter (fun o =>
    decide (angleDifference o.bearing
      (G.calcBearing o.latitude o.longitude r.latitude r.longitude) < 5))

/-- Index triples i < j < k in the lexicographic order of the three nested
loops of the RANSAC method. -/
def ransacTriples (n : Nat) : List (Nat × Nat × Nat) :=
  (List.range n).flatMap (fun i =>
    (List.range n).flatMap (fun j =>
      (List.range n).filterMap (fun k =>
        if i < j ∧ j < k then some (i, j, k) else none)))

/-- One iteration of the RANSAC search: run the simple intersection on the
3-subset, score it by inlier count times confidence, keep it when the score
strictly exceeds the best so far (so the first best candidate is retained on
ties, as in the source). -/
def ransacStep (G : GeoOracle) (obs : List BearingObs)
    (best : ℚ × Option (TriResult × List BearingObs)) (t : Nat × Nat × Nat) :
    ℚ × Option (TriResult × List BearingObs) :=
  match obs[t.1]?, obs[t.2.1]?, obs[t.2.2]? with
  | some oi, some oj, some ok2 =>
      match simpleIntersection G [oi, oj, ok2] with
      | none => best
      | some r =>
          let inliers := countInliers G r obs
          let score := (inliers.length : ℚ) * r.confidence
          if score > best.1 then (score, some (r, inliers)) else best
  | _, _, _ => best

/-- Method ransac triangulation of triangulation.py: exhaustive search over all
3-subsets, then refit of the ids, confidence and uncertainty on the inliers of
the best candidate when at least two inliers remain. -/
def ransacTriangulation (G : GeoOracle) (obs : List BearingObs) : List TriResult :=
  if obs.length < 3 then []
  else
    match ((ransacTriples obs.length).foldl (ransacStep G obs) (0, none)).2 with
    | some (r, inliers) =>
        if inliers.length ≥ 2 then
          [{ r with observation_ids := inliers.map (fun o => o.detection_id)
                    confidence := triCalcConfidence G inliers
                    uncertainty_meters := triCalcUncertainty inliers }]
        else []
    | none => []

/-- Method least squares triangulation of triangulation.py: seed from the
simple intersection of the first two observations, then run the optimizer over
all observations; confidence and uncertainty are scored on all observations. -/
def leastSquaresTriangulation (G : GeoOracle) (obs : List BearingObs) : Option TriResult :=
  if obs.length < 2 then none
  else
    match simpleIntersection G (obs.take 2) with
    | none => none
    | some init =>
        match G.minimizeLS (init.latitude, init.longitude, init.altitude) obs with
        | none => none
        | some (lat, lon, alt) =>
            some { latitude := lat
                   longitude := lon
                   altitude := alt
                   confidence := triCalcConfidence G obs
                   uncertainty_meters := triCalcUncertainty obs
                   observation_ids := obs.map (fun o => o.detection_id)
                   method := "least_squares" }

/-- Method filter observations of triangulation.py: drop observations whose
confidence is below 0.3; the distance check of the source returns True for
every observation. -/
def filterObservations (obs : List BearingObs) : List BearingObs :=
  obs.filter (fun o => !decide (o.confidence < 3/10))

/-- Candidate list of the triangulate method in evaluation order: the simple
intersection, the RANSAC results, the least-squares result. -/
def triCandidates (G : GeoOracle) (validObs : List BearingObs) : List TriResult :=
  (match simpleIntersection G validObs with
    | some r => [r]
    | none => [])
  ++ ransacTriangulation G validObs
  ++ (match leastSquaresTriangulation G validObs with
    | some r => [r]
    | none => [])

/-- Fold underlying the selection max(results, key confidence) of the
triangulate method: the best candidate is replaced only on a strictly larger
confidence, so the first candidate attaining the maximum is retained, exactly
as the Python max built-in does. -/
def pickBest (acc : TriResult) (rs : List TriResult) : TriResult :=
  rs.foldl (fun best x => if x.confidence > best.confidence then x else best) acc

/-- Selection max(results, key confidence) of the triangulate method. -/
def bestByConfidence (l : List TriResult) : Option TriResult :=
  match l with
  | [] => none
  | r :: rs => some (pickBest r rs)

/-- Method triangulate of triangulation.py: empty result below two
observations, filter, empty result below two surviving observations, then the
best of the assembled candidates. -/
def triangulate (G : GeoOracle) (obs : List BearingObs) : List TriResult :=
  if obs.length < 2 then []
  else
    let valid := filterObservations obs
    if valid.length < 2 then []
    else
      match bestByConfidence (triCandidates G valid) with
      | some r => [r]
      | none => []

/-- Error kind of the spec for triangulation preconditions. -/
inductive TriangulationError where
  | insufficientObservations
deriving DecidableEq, Repr

/-- Modelled from the spec: policy step 1 of section 4.1 and the error table of
section 7 say the engine drops observations with confidence below 0.3 and then
fails with InsufficientObservations, surfaced as HTTP 422, when fewer than two
observations remain; the HTTP surface for the triangulate endpoint is not among
the sources.  This definition follows the spec wording, for comparison with the
source-translated triangulate above. -/
def specTriangulatePolicy (G : GeoOracle) (obs : List BearingObs) :
    Except TriangulationError (List TriResult) :=
  let valid := filterObservations obs
  if valid.length < 2 then Except.error TriangulationError.insufficientObservations
  else Except.ok (triangulate G valid)

/-! ### Spread engine isochrones: packages/algorithms/src/spread_modeling.py -/

/-- Cell of a run perimeter: a lat, lon pair. -/
abbrev Cell : Type := ℚ × ℚ

/-- Python set.update on an insertion-ordered duplicate-free list. -/
def setUpdate (acc : List Cell) (p : List Cell) : List Cell :=
  p.foldl (fun a c => if c ∈ a then a else a ++ [c]) acc

/-- Isochrone dictionary built by the generate isochrones method, with its four
keys as fields. -/
structure Isochrone where
  hours_from_start : Int
  geometry : List Cell
  area_hectares : ℚ
  perimeter_km : ℚ
deriving DecidableEq, Repr

/-- Pooled burned cells of the generate isochrones loop body: the cells of
every nonempty run perimeter, as a set. -/
def burnedCells (allPerimeters : List (List Cell)) : List Cell :=
  allPerimeters.foldl (fun b p => if p.length > 0 then setUpdate b p else b) []

/-- Body of the loop of the generate isochrones method for one time interval:
skip it beyond the simulated horizon, otherwise pool the cells of every
nonempty run perimeter and, when any cell burned, append the isochrone whose
area is cells times 0.01 hectares and whose perimeter is cells times 0.1 km. -/
def isoStep (allPerimeters : List (List Cell)) (simulationHours : Int)
    (acc : List Isochrone) (hours : Int) : List Isochrone :=
  if hours > simulationHours then acc
  else if (burnedCells allPerimeters).length > 0 then
    acc ++ [{ hours_from_start := hours
              geometry := burnedCells allPerimeters
              area_hectares := ((burnedCells allPerimeters).length : ℚ) * (1/100)
              perimeter_km := ((burnedCells allPerimeters).length : ℚ) * (1/10) }]
  else acc

/-- Method generate isochrones of spread_modeling.py: fold of the loop body
over the fixed time intervals 6, 12, 18, 24 hours. -/
def generateIsochrones (allPerimeters : List (List Cell)) (simulationHours : Int) :
    List Isochrone :=
  ([6, 12, 18, 24] : List Int).foldl (isoStep allPerimeters simulationHours) []

/-! ### Concrete inputs used by counterexamples and witnesses -/

/-- Mission row in the terminal state completed. -/
def rowCompleted : MissionRow :=
  { mission_id := "m1", type := "ember_damp", priority := "high",
    description := some "d", status := "completed", lat := 40, lng := -120,
    radius := 200, waypoints := none, assets := none, progress := 100,
    estimated_duration := none }

/-- Mission creation request reusing an already stored mission_id. -/
def missionInDup : MissionIn :=
  { mission_id := some "m-dup", type := "surveillance", priority := "medium",
    description := some "patrol", location := { lat := 40, lng := -120, radius := some 200 },
    waypoints := none, assets := none }

/-- Stored mission row owning the mission_id that missionInDup reuses. -/
def rowDup : MissionRow :=
  { mission_id := "m-dup", type := "surveillance", priority := "medium",
    description := some "patrol", status := "pending", lat := 40, lng := -120,
    radius := 200, waypoints := none, assets := none, progress := 0,
    estimated_duration := none }

/-- High-confidence fire detection. -/
def detFire : DetectionIn :=
  { source_id := "cam-1", timestamp := "2024-01-01T00:00:00Z", type := "fire",
    lat := 40001/1000, lon := -119999/1000, alt := none, confidence := 9/10,
    image_refs := none, heat_index := none }

/-- Environmental input with every degraded component at once: missing fuel
model, zero moistures, zero wind and an out-of-range temperature. -/
def envDegraded : EnvironmentalData :=
  { latitude := 40, longitude := -120, timestamp := "2024-01-01T00:00:00Z",
    fuel_model := 0, slope_deg := 10, aspect_deg := 0, canopy_cover := 0,
    soil_moisture := 0, fuel_moisture := 0, temperature_c := 70,
    relative_humidity := 50, wind_speed_mps := 0, wind_direction_deg := 0,
    elevation_m := 0, lightning_strikes_24h := 0, historical_ignitions := 0 }

/-- Environmental input with fuel model 14, outside the Anderson 13 range. -/
def envFuel14 : EnvironmentalData :=
  { latitude := 40, longitude := -120, timestamp := "2024-01-01T00:00:00Z",
    fuel_model := 14, slope_deg := 10, aspect_deg := 0, canopy_cover := 0,
    soil_moisture := 1/2, fuel_moisture := 1/2, temperature_c := 25,
    relative_humidity := 50, wind_speed_mps := 5, wind_direction_deg := 0,
    elevation_m := 0, lightning_strikes_24h := 0, historical_ignitions := 0 }

/-- Oracle whose numeric subroutines always fail or return zero; the claims
using it only exercise paths that never consult the geometry. -/
def oracle0 : GeoOracle :=
  { rayIntersect := fun _ _ => none
    minimizeLS := fun _ _ => none
    calcBearing := fun _ _ _ _ => 0
    baselineDistance := fun _ _ => 0 }

/-- Observation below the 0.3 confidence floor, as in the unit test of the
repository. -/
def obsLow1 : BearingObs :=
  { device_id := "camera_1", latitude := 40, longitude := -120, altitude := 1000,
    camera_heading := 0, camera_pitch := 0, bearing := 45, confidence := 1/10,
    detection_id := "det_1" }

/-- Second observation below the 0.3 confidence floor. -/
def obsLow2 : BearingObs :=
  { device_id := "camera_2", latitude := 401/10, longitude := -1199/10, altitude := 1100,
    camera_heading := 90, camera_pitch := 0, bearing := 315, confidence := 2/10,
    detection_id := "det_2" }

/-- Oracle on which both the ray intersection and the optimizer succeed. -/
def oracle1 : GeoOracle :=
  { rayIntersect := fun _ _ => some (1, 2, 3)
    minimizeLS := fun p _ => some p
    calcBearing := fun _ _ _ _ => 0
    baselineDistance := fun _ _ => 5000 }

/-- Confident observation, bearing 45 degrees. -/
def obsA : BearingObs :=
  { device_id := "camera_1", latitude := 40, longitude := -120, altitude := 1000,
    camera_heading := 0, camera_pitch := 0, bearing := 45, confidence := 9/10,
    detection_id := "det_1" }

/-- Confident observation, bearing 315 degrees. -/
def obsB : BearingObs :=
  { device_id := "camera_2", latitude := 401/10, longitude := -1199/10, altitude := 1100,
    camera_heading := 90, camera_pitch := 0, bearing := 315, confidence := 8/10,
    detection_id := "det_2" }

/-- Simple-intersection candidate that triangulate returns on oracle1 with the
observations obsA and obsB. -/
def resultSimpleAB : TriResult :=
  { latitude := 1, longitude := 2, altitude := 3, confidence := 79/100,
    uncertainty_meters := 500, observation_ids := ["det_1", "det_2"],
    method := "simple_intersection" }

/-- Converged least-squares candidate on oracle1 with the observations obsA and
obsB; its confidence ties with the simple-intersection candidate. -/
def resultLsAB : TriResult :=
  { latitude := 1, longitude := 2, altitude := 3, confidence := 79/100,
    uncertainty_meters := 500, observation_ids := ["det_1", "det_2"],
    method := "least_squares" }

/-! ### Helper lemmas -/

/-- Committing the row fetched by first() back unchanged leaves the table
unchanged. -/
theorem replaceFirst_of_find (missions : List MissionRow) (mid : String) (row : MissionRow)
    (h : findMission missions mid = some row) : replaceFirst missions mid row = missions := by
  induction missions with
  | nil => simp [findMission] at h
  | cons r rs ih =>
      by_cases hr : r.mission_id == mid
      · have h' : some r = some row := by
          simpa [findMission, List.find?_cons, hr] using h
        cases h'
        simp [replaceFirst, hr]
      · have h' : findMission rs mid = some row := by
          simpa [findMission, List.find?_cons, hr] using h
        simp [replaceFirst, hr, ih h']

/-! ### Claims -/

/-- Claim C1.  On POST to the detections endpoint, a new mission with type
ember_damp, priority high, status pending, location equal to the detection lat
and lon, and radius 200 m is synthesized and persisted if and only if the
detection type is fire, hotspot or smoke and its confidence is at least 0.7; a
detection failing either condition creates no mission. -/
theorem create_detection_auto_mission_iff (genId : String) (body : DetectionIn) (st : ApiState) :
    (((body.type = "fire" ∨ body.type = "hotspot" ∨ body.type = "smoke")
        ∧ 7/10 ≤ body.confidence) →
      (createDetection genId body st).missions = st.missions ++ [autoMission genId body])
    ∧ (¬ ((body.type = "fire" ∨ body.type = "hotspot" ∨ body.type = "smoke")
        ∧ 7/10 ≤ body.confidence) →
      (createDetection genId body st).missions = st.missions)
    ∧ (autoMission genId body).type = "ember_damp"
    ∧ (autoMission genId body).priority = "high"
    ∧ (autoMission genId body).status = "pending"
    ∧ (autoMission genId body).lat = body.lat
    ∧ (autoMission genId body).lng = body.lon
    ∧ (autoMission genId body).radius = 200 := by
  have hc : (body.type ∈ (["fire", "hotspot", "smoke"] : List String)
        ∧ body.confidence ≥ 7/10)
      ↔ ((body.type = "fire" ∨ body.type = "hotspot" ∨ body.type = "smoke")
        ∧ 7/10 ≤ body.confidence) := by
    simp [List.mem_cons, ge_iff_le]
  refine ⟨?_, ?_, rfl, rfl, rfl, rfl, rfl, rfl⟩
  · intro h
    simp only [createDetection]
    rw [if_pos (hc.mpr h)]
  · intro h
    simp only [createDetection]
    rw [if_neg (fun hx => h (hc.mp hx))]

/-- Witness for C1: a fire detection at confidence 0.9 creates exactly the auto
mission. -/
theorem create_detection_auto_mission_iff_witness :
    (createDetection "auto-1" detFire ⟨[], []⟩).missions = [] ++ [autoMission "auto-1" detFire] :=
  (create_detection_auto_mission_iff "auto-1" detFire ⟨[], []⟩).1
    (by refine ⟨Or.inl rfl, by norm_num [detFire]⟩)

/-- Claim C9.  A PATCH to the mission endpoint whose body has status, progress,
description and estimatedDuration all absent leaves every stored field of an
existing mission unchanged and returns the mission's current state, and returns
404 when the mission_id is unknown. -/
theorem update_mission_empty_body (mid : String) (missions : List MissionRow) :
    (findMission missions mid = none →
      updateMission mid ⟨none, none, none, none⟩ missions
        = (missions, Except.error ⟨404, "Mission not found"⟩))
    ∧ ∀ row, findMission missions mid = some row →
      updateMission mid ⟨none, none, none, none⟩ missions
        = (missions, Except.ok (toMissionOut row)) := by
  constructor
  · intro h
    simp [updateMission, h]
  · intro row h
    have happ : applyUpdate row ⟨none, none, none, none⟩ = row := rfl
    simp [updateMission, h, happ, replaceFirst_of_find missions mid row h]

/-- Witness for C9: an empty PATCH on a stored mission returns it unchanged. -/
theorem update_mission_empty_body_witness :
    updateMission "m1" ⟨none, none, none, none⟩ [rowCompleted]
      = ([rowCompleted], Except.ok (toMissionOut rowCompleted)) :=
  (update_mission_empty_body "m1" [rowCompleted]).2 rowCompleted (by decide)

/-- Counterexample to C2.  A PATCH carrying status pending on a mission stored
in the terminal state completed is accepted and stores pending: the stored
status moves backward out of a terminal state, so no forward-only invariant
holds. -/
theorem mission_status_moves_backward :
    rowCompleted.status = "completed"
    ∧ (updateMission "m1" ⟨some "pending", none, none, none⟩ [rowCompleted]).1.map
        MissionRow.status = ["pending"]
    ∧ ((updateMission "m1" ⟨some "pending", none, none, none⟩ [rowCompleted]).2.toOption.map
        MissionOut.status) = some "pending" := by
  refine ⟨rfl, rfl, rfl⟩

/-- Claim C2, amended.  No forward-only state machine is enforced: the PATCH
handler stores any client-supplied status verbatim over whatever status the
mission currently has, and the second stage of the background lifecycle task
sets status completed with progress 100 unconditionally. -/
theorem update_mission_stores_any_status :
    (∀ (mid s : String) (body : MissionUpdateIn) (missions : List MissionRow)
        (row : MissionRow),
      findMission missions mid = some row → body.status = some s →
      updateMission mid body missions
          = (replaceFirst missions mid (applyUpdate row body),
             Except.ok (toMissionOut (applyUpdate row body)))
        ∧ (applyUpdate row body).status = s)
    ∧ ∀ (mid : String) (missions : List MissionRow) (row : MissionRow),
      findMission missions mid = some row →
      advanceToCompleted mid missions
        = replaceFirst missions mid { row with status := "completed", progress := 100 } := by
  constructor
  · intro mid s body missions row hf hs
    refine ⟨by simp [updateMission, hf], ?_⟩
    simp only [applyUpdate, hs]
    cases body.progress <;> cases body.description <;> cases body.estimatedDuration <;> rfl
  · intro mid missions row hf
    simp [advanceToCompleted, hf]

/-- Witness for the amended C2: the PATCH of the counterexample input indeed
stores status pending over completed. -/
theorem update_mission_stores_any_status_witness :
    updateMission "m1" ⟨some "pending", none, none, none⟩ [rowCompleted]
        = (replaceFirst [rowCompleted] "m1"
            (applyUpdate rowCompleted ⟨some "pending", none, none, none⟩),
           Except.ok (toMissionOut (applyUpdate rowCompleted ⟨some "pending", none, none, none⟩)))
      ∧ (applyUpdate rowCompleted ⟨some "pending", none, none, none⟩).status = "pending" :=
  update_mission_stores_any_status.1 "m1" "pending" ⟨some "pending", none, none, none⟩
    [rowCompleted] rowCompleted (by decide) rfl

/-- Counterexample to C4.  Creating a mission whose mission_id collides with a
stored mission fails with HTTP status 500 from the catch-all handler, not with
a DuplicateMission error carrying 409; the store is left unchanged. -/
theorem duplicate_mission_returns_500 :
    createMission "gen-1" missionInDup [rowDup]
      = ([rowDup], Except.error ⟨500, "Failed to create mission"⟩)
    ∧ (500 : Nat) ≠ 409 := by
  refine ⟨rfl, by decide⟩

/-- Claim C4, amended.  Creating a mission with a client-supplied mission_id
equal to the mission_id of an already persisted mission fails, surfaced as a
generic HTTP 500 because the unique-constraint violation is swallowed by the
catch-all except-clause, and no second mission record is stored. -/
theorem duplicate_mission_generic_failure (genId mid : String) (m : MissionIn)
    (missions : List MissionRow) (hm : m.mission_id = some mid)
    (hdup : missions.any (fun r => r.mission_id == mid) = true) :
    createMission genId m missions
      = (missions, Except.error ⟨500, "Failed to create mission"⟩) := by
  simp [createMission, hm, hdup]

/-- Witness for the amended C4. -/
theorem duplicate_mission_generic_failure_witness :
    createMission "gen-2" missionInDup [rowDup]
      = ([rowDup], Except.error ⟨500, "Failed to create mission"⟩) :=
  duplicate_mission_generic_failure "gen-2" "m-dup" missionInDup [rowDup] rfl (by decide)

/-- Counterexample to C6.  On an input with fuel_model 0, zero moistures, zero
wind and an out-of-range temperature, the untrained calculate risk score still
reports confidence exactly 0.7, not strictly below it: the heuristic branch
never applies the multiplicative reductions, which live in the separate
confidence method (whose baseline is 1, not 0.7) reached only when a model is
trained. -/
theorem heuristic_confidence_not_reduced :
    (calculateRiskScoreUntrained envDegraded).confidence = 7/10
    ∧ ¬ (calculateRiskScoreUntrained envDegraded).confidence < 7/10
    ∧ calcConfidence envDegraded = (8/10) * (9/10) * (9/10) * (8/10) * (7/10) := by
  refine ⟨rfl, by norm_num [calculateRiskScoreUntrained, heuristicRiskScore],
    by norm_num [calcConfidence, envDegraded]⟩

/-- Claim C6, amended.  In heuristic (untrained) mode, calculate risk score
returns confidence exactly 0.7 for every input, degraded or not; the
multiplicative reduction schedule is computed by the separate confidence
method from a baseline of 1 and only on the trained branch. -/
theorem heuristic_confidence_constant (e : EnvironmentalData) :
    (calculateRiskScoreUntrained e).confidence = 7/10 := rfl

/-- Claim C10.  In heuristic mode, calculate risk score is total in
fuel_model: any integer outside 1 through 13 is scored without error using the
default fuel coefficient 0.5 for the fuel term weighted by 0.3, and 0.5 is
reported as the fuel_model contributing factor. -/
theorem fuel_model_default_half (e : EnvironmentalData)
    (h : e.fuel_model < 1 ∨ 13 < e.fuel_model) :
    fuelRisk e.fuel_model = 1/2
    ∧ (heuristicRiskScore e).contributing_factors.fuel_model = 1/2
    ∧ (heuristicRiskScore e).risk_score
        = min 1 (max 0 ((1/2) * (3/10) + slopeRisk e * (2/10) + moistureRisk e * (2/10)
            + weatherRisk e * (2/10) + historyRisk e * (1/10))) := by
  have hne : ∀ k : Int, 1 ≤ k ∧ k ≤ 13 → e.fuel_model ≠ k := by
    intro k hk
    omega
  have hf : fuelRisk e.fuel_model = 1/2 := by
    unfold fuelRisk
    rw [if_neg (hne 1 (by decide)), if_neg (hne 2 (by decide)), if_neg (hne 3 (by decide)),
      if_neg (hne 4 (by decide)), if_neg (hne 5 (by decide)), if_neg (hne 6 (by decide)),
      if_neg (hne 7 (by decide)), if_neg (hne 8 (by decide)), if_neg (hne 9 (by decide)),
      if_neg (hne 10 (by decide)), if_neg (hne 11 (by decide)), if_neg (hne 12 (by decide)),
      if_neg (hne 13 (by decide))]
  refine ⟨hf, ?_, ?_⟩
  · show fuelRisk e.fuel_model = 1/2
    exact hf
  · show min 1 (max 0 (fuelRisk e.fuel_model * (3/10) + slopeRisk e * (2/10)
        + moistureRisk e * (2/10) + weatherRisk e * (2/10) + historyRisk e * (1/10)))
      = min 1 (max 0 ((1/2) * (3/10) + slopeRisk e * (2/10) + moistureRisk e * (2/10)
        + weatherRisk e * (2/10) + historyRisk e * (1/10)))
    rw [hf]

/-- Witness for C10 at fuel model 14. -/
theorem fuel_model_default_half_witness :
    fuelRisk envFuel14.fuel_model = 1/2
    ∧ (heuristicRiskScore envFuel14).contributing_factors.fuel_model = 1/2
    ∧ (heuristicRiskScore envFuel14).risk_score
        = min 1 (max 0 ((1/2) * (3/10) + slopeRisk envFuel14 * (2/10)
            + moistureRisk envFuel14 * (2/10) + weatherRisk envFuel14 * (2/10)
            + historyRisk envFuel14 * (1/10))) :=
  fuel_model_default_half envFuel14 (Or.inr (by decide))

/-- Claim C7.  The heuristic risk score is monotone non-decreasing in
temperature, every other field held fixed. -/
theorem heuristic_risk_monotone_temperature (e : EnvironmentalData) (t2 : ℚ)
    (h : e.temperature_c ≤ t2) :
    (heuristicRiskScore e).risk_score
      ≤ (heuristicRiskScore { e with temperature_c := t2 }).risk_score := by
  have hterm : tempRisk e ≤ tempRisk { e with temperature_c := t2 } := by
    unfold tempRisk
    have h1 : (e.temperature_c - 20) / 30 ≤ (t2 - 20) / 30 := by
      apply div_le_div_of_nonneg_right ?_ (by norm_num)
      linarith
    exact min_le_min le_rfl (max_le_max le_rfl h1)
  have hw : weatherRisk e ≤ weatherRisk { e with temperature_c := t2 } := by
    unfold weatherRisk
    have h5 : humidityRisk { e with temperature_c := t2 } = humidityRisk e := rfl
    have h6 : windRisk { e with temperature_c := t2 } = windRisk e := rfl
    rw [h5, h6]
    linarith
  unfold heuristicRiskScore
  dsimp only
  have h1 : slopeRisk { e with temperature_c := t2 } = slopeRisk e := rfl
  have h2 : moistureRisk { e with temperature_c := t2 } = moistureRisk e := rfl
  have h3 : historyRisk { e with temperature_c := t2 } = historyRisk e := rfl
  have h4 : fuelRisk ({ e with temperature_c := t2 } : EnvironmentalData).fuel_model
      = fuelRisk e.fuel_model := rfl
  rw [h1, h2, h3, h4]
  refine min_le_min le_rfl (max_le_max le_rfl ?_)
  linarith

/-- Witness for C7 at a concrete temperature increase. -/
theorem heuristic_risk_monotone_temperature_witness :
    (heuristicRiskScore envFuel14).risk_score
      ≤ (heuristicRiskScore { envFuel14 with temperature_c := 40 }).risk_score :=
  heuristic_risk_monotone_temperature envFuel14 40 (by norm_num [envFuel14])

/-- Shape of any isochrone appended by one loop iteration of the generator. -/
theorem mem_isoStep (ap : List (List Cell)) (sh : Int) (acc : List Isochrone)
    (hours : Int) (iso : Isochrone) (h : iso ∈ isoStep ap sh acc hours) :
    iso ∈ acc ∨
      (iso.hours_from_start = hours ∧ iso.hours_from_start ≤ sh
        ∧ iso.area_hectares = (iso.geometry.length : ℚ) * (1/100)
        ∧ iso.perimeter_km = (iso.geometry.length : ℚ) * (1/10)) := by
  unfold isoStep at h
  split_ifs at h with h1 h2
  · exact Or.inl h
  · rcases List.mem_append.mp h with h3 | h3
    · exact Or.inl h3
    · have h4 := List.mem_singleton.mp h3
      subst h4
      exact Or.inr ⟨rfl, show hours ≤ sh by omega, rfl, rfl⟩
  · exact Or.inl h

/-- Shape of any isochrone produced by folding the generator loop. -/
theorem mem_isoFold (ap : List (List Cell)) (sh : Int) (l : List Int)
    (acc : List Isochrone) (iso : Isochrone)
    (h : iso ∈ l.foldl (isoStep ap sh) acc) :
    iso ∈ acc ∨
      (iso.hours_from_start ∈ l ∧ iso.hours_from_start ≤ sh
        ∧ iso.area_hectares = (iso.geometry.length : ℚ) * (1/100)
        ∧ iso.perimeter_km = (iso.geometry.length : ℚ) * (1/10)) := by
  induction l generalizing acc with
  | nil => exact Or.inl h
  | cons a t ih =>
      rcases ih (isoStep ap sh acc a) h with h1 | h1
      · rcases mem_isoStep ap sh acc a iso h1 with h2 | h2
        · exact Or.inl h2
        · exact Or.inr ⟨by rw [h2.1]; exact List.mem_cons_self a t, h2.2⟩
      · exact Or.inr ⟨List.mem_cons_of_mem a h1.1, h1.2⟩

/-- Claim C8.  Every isochrone of a spread-simulation result has
hours_from_start among 6, 12, 18, 24 and not beyond the simulated horizon, an
area of 0.01 hectares per geometry cell, and a perimeter of 0.1 km per
geometry cell. -/
theorem isochrone_shape (ap : List (List Cell)) (sh : Int) (iso : Isochrone)
    (h : iso ∈ generateIsochrones ap sh) :
    (iso.hours_from_start = 6 ∨ iso.hours_from_start = 12
      ∨ iso.hours_from_start = 18 ∨ iso.hours_from_start = 24)
    ∧ iso.hours_from_start ≤ sh
    ∧ iso.area_hectares = (iso.geometry.length : ℚ) * (1/100)
    ∧ iso.perimeter_km = (iso.geometry.length : ℚ) * (1/10) := by
  rcases mem_isoFold ap sh [6, 12, 18, 24] [] iso h with h1 | h1
  · simp at h1
  · refine ⟨?_, h1.2⟩
    simpa using h1.1

/-- Witness for C8: a single one-cell run perimeter over a 24 hour horizon
yields the 6 hour isochrone of one cell, area 0.01 and perimeter 0.1. -/
theorem isochrone_shape_witness :
    ((⟨6, [((1 : ℚ), (2 : ℚ))], 1/100, 1/10⟩ : Isochrone).hours_from_start = 6
      ∨ (⟨6, [((1 : ℚ), (2 : ℚ))], 1/100, 1/10⟩ : Isochrone).hours_from_start = 12
      ∨ (⟨6, [((1 : ℚ), (2 : ℚ))], 1/100, 1/10⟩ : Isochrone).hours_from_start = 18
      ∨ (⟨6, [((1 : ℚ), (2 : ℚ))], 1/100, 1/10⟩ : Isochrone).hours_from_start = 24)
    ∧ (⟨6, [((1 : ℚ), (2 : ℚ))], 1/100, 1/10⟩ : Isochrone).hours_from_start ≤ 24
    ∧ (⟨6, [((1 : ℚ), (2 : ℚ))], 1/100, 1/10⟩ : Isochrone).area_hectares
        = (((⟨6, [((1 : ℚ), (2 : ℚ))], 1/100, 1/10⟩ : Isochrone).geometry.length : ℚ)) * (1/100)
    ∧ (⟨6, [((1 : ℚ), (2 : ℚ))], 1/100, 1/10⟩ : Isochrone).perimeter_km
        = (((⟨6, [((1 : ℚ), (2 : ℚ))], 1/100, 1/10⟩ : Isochrone).geometry.length : ℚ)) * (1/10) :=
  isochrone_shape [[((1 : ℚ), (2 : ℚ))]] 24 ⟨6, [((1 : ℚ), (2 : ℚ))], 1/100, 1/10⟩ (by
    have h1 : burnedCells [[((1 : ℚ), (2 : ℚ))]] = [((1 : ℚ), (2 : ℚ))] := by
      norm_num [burnedCells, setUpdate]
    have h2 : generateIsochrones [[((1 : ℚ), (2 : ℚ))]] 24
        = [⟨6, [((1 : ℚ), (2 : ℚ))], 1/100, 1/10⟩, ⟨12, [((1 : ℚ), (2 : ℚ))], 1/100, 1/10⟩,
           ⟨18, [((1 : ℚ), (2 : ℚ))], 1/100, 1/10⟩, ⟨24, [((1 : ℚ), (2 : ℚ))], 1/100, 1/10⟩] := by
      norm_num [generateIsochrones, isoStep, h1, List.foldl_cons, List.foldl_nil]
    rw [h2]
    exact List.mem_cons_self _ _)

/-- Counterexample to C3.  On two observations whose confidences 0.1 and 0.2
fall below the 0.3 floor, triangulate returns the empty list as an ordinary
value: no InsufficientObservations error and no 422 occur anywhere in the
engine, whose return type has no error channel, while the spec-modelled policy
fails.  The repository unit test asserts exactly this empty-list behavior. -/
theorem low_confidence_empty_not_error :
    triangulate oracle0 [obsLow1, obsLow2] = []
    ∧ specTriangulatePolicy oracle0 [obsLow1, obsLow2]
        = Except.error TriangulationError.insufficientObservations := by
  have hf : filterObservations [obsLow1, obsLow2] = [] := by
    norm_num [filterObservations, obsLow1, obsLow2, List.filter]
  constructor
  · norm_num [triangulate, hf]
  · norm_num [specTriangulatePolicy, hf]

/-- Claim C3, amended.  For every input list, triangulate first drops
observations with confidence below 0.3, and if fewer than 2 observations
remain (or fewer than 2 were given) it returns an empty result list as a
normal value rather than failing with an error. -/
theorem triangulate_insufficient_empty (G : GeoOracle) (obs : List BearingObs) :
    (∀ o ∈ filterObservations obs, o ∈ obs ∧ ¬ o.confidence < 3/10)
    ∧ (∀ o ∈ obs, ¬ o.confidence < 3/10 → o ∈ filterObservations obs)
    ∧ (obs.length < 2 → triangulate G obs = [])
    ∧ ((filterObservations obs).length < 2 → triangulate G obs = []) := by
  refine ⟨?_, ?_, ?_, ?_⟩
  · intro o ho
    have h1 := List.mem_filter.mp ho
    refine ⟨h1.1, ?_⟩
    simpa using h1.2
  · intro o ho hc
    refine List.mem_filter.mpr ⟨ho, ?_⟩
    simpa using hc
  · intro h
    simp [triangulate, h]
  · intro h
    by_cases h1 : obs.length < 2
    · simp [triangulate, h1]
    · simp [triangulate, h1, h]

/-- Witness for the amended C3: a single observation yields the empty list. -/
theorem triangulate_insufficient_empty_witness :
    triangulate oracle0 [obsLow1] = [] :=
  (triangulate_insufficient_empty oracle0 [obsLow1]).2.2.1 (by norm_num)

/-- Evaluation: both confident observations survive the filter. -/
theorem filter_obsAB : filterObservations [obsA, obsB] = [obsA, obsB] := by
  norm_num [filterObservations, obsA, obsB, List.filter]

/-- Evaluation: the sorted bearings of the two observations. -/
theorem sort_obsAB :
    sortAsc [obsA.bearing, obsB.bearing] = [(45 : ℚ), 315] := by
  have ha : obsA.bearing = 45 := rfl
  have hb : obsB.bearing = 315 := rfl
  norm_num [ha, hb, sortAsc, insertSorted]

/-- Evaluation: the angular spread of the two observations is 270 degrees. -/
theorem spread_obsAB : angularSpread [obsA, obsB] = 270 := by
  have hrange : List.range 2 = [0, 1] := by decide
  rw [angularSpread]
  norm_num [sort_obsAB, hrange, max_def]

/-- Evaluation: the uncertainty of the two observations is 500 m. -/
theorem unc_obsAB : triCalcUncertainty [obsA, obsB] = 500 := by
  rw [triCalcUncertainty]
  norm_num [spread_obsAB]

/-- Evaluation: the blended confidence of the two observations is 0.79. -/
theorem conf_obsAB : triCalcConfidence oracle1 [obsA, obsB] = 79/100 := by
  have hca : obsA.confidence = 9/10 := rfl
  have hcb : obsB.confidence = 8/10 := rfl
  have hhead : [obsA, obsB].headD dummyObs = obsA := rfl
  have hlast : [obsA, obsB].getLastD dummyObs = obsB := rfl
  rw [triCalcConfidence]
  norm_num [hca, hcb, hhead, hlast, spread_obsAB, oracle1, min_def, max_def]

/-- Evaluation: the simple intersection on oracle1. -/
theorem simple_obsAB :
    simpleIntersection oracle1 [obsA, obsB] = some resultSimpleAB := by
  have ht : [obsA, obsB].take 2 = [obsA, obsB] := rfl
  have hray : oracle1.rayIntersect obsA obsB = some (1, 2, 3) := rfl
  simp only [simpleIntersection, hray, ht]
  rw [conf_obsAB, unc_obsAB]
  rfl

/-- Evaluation: RANSAC needs three observations and yields nothing here. -/
theorem ransac_obsAB : ransacTriangulation oracle1 [obsA, obsB] = [] := by
  norm_num [ransacTriangulation]

/-- Evaluation: the least-squares candidate on oracle1, which converges. -/
theorem ls_obsAB :
    leastSquaresTriangulation oracle1 [obsA, obsB] = some resultLsAB := by
  have ht : [obsA, obsB].take 2 = [obsA, obsB] := rfl
  have hmin : oracle1.minimizeLS (resultSimpleAB.latitude, resultSimpleAB.longitude,
      resultSimpleAB.altitude) [obsA, obsB] = some (1, 2, 3) := rfl
  rw [leastSquaresTriangulation, if_neg (by norm_num), ht, simple_obsAB]
  simp only [hmin]
  rw [conf_obsAB, unc_obsAB]
  rfl

/-- Evaluation: the assembled candidate list, simple intersection first. -/
theorem cands_obsAB :
    triCandidates oracle1 [obsA, obsB] = [resultSimpleAB, resultLsAB] := by
  rw [triCandidates, simple_obsAB, ransac_obsAB, ls_obsAB]
  rfl

/-- Evaluation: on the tie the selection keeps the first candidate. -/
theorem best_obsAB :
    bestByConfidence [resultSimpleAB, resultLsAB] = some resultSimpleAB := by
  norm_num [bestByConfidence, pickBest, resultSimpleAB, resultLsAB]

/-- Evaluation: triangulate returns the simple-intersection candidate. -/
theorem triangulate_obsAB :
    triangulate oracle1 [obsA, obsB] = [resultSimpleAB] := by
  norm_num [triangulate, filter_obsAB, cands_obsAB, best_obsAB]

/-- Counterexample to C5.  On oracle1 with the observations obsA and obsB the
least-squares candidate converges and ties the simple-intersection candidate's
confidence, yet the returned result carries method simple_intersection: the
source keeps the first maximal candidate in evaluation order, not the
least-squares one. -/
theorem tie_break_keeps_simple_not_least_squares :
    (triangulate oracle1 [obsA, obsB]).map TriResult.method = ["simple_intersection"]
    ∧ (leastSquaresTriangulation oracle1 (filterObservations [obsA, obsB])).map
        TriResult.method = some "least_squares"
    ∧ (leastSquaresTriangulation oracle1 (filterObservations [obsA, obsB])).map
        TriResult.confidence
      = (simpleIntersection oracle1 (filterObservations [obsA, obsB])).map
        TriResult.confidence := by
  rw [filter_obsAB, triangulate_obsAB, ls_obsAB, simple_obsAB]
  exact ⟨rfl, rfl, rfl⟩

/-- Properties of the first-maximum fold behind the candidate selection. -/
theorem pickBest_spec (rs : List TriResult) (acc : TriResult) :
    pickBest acc rs ∈ acc :: rs
    ∧ (∀ x ∈ acc :: rs, x.confidence ≤ (pickBest acc rs).confidence)
    ∧ ∃ pre post, acc :: rs = pre ++ (pickBest acc rs) :: post
        ∧ ∀ x ∈ pre, x.confidence < (pickBest acc rs).confidence := by
  induction rs generalizing acc with
  | nil =>
      refine ⟨List.mem_cons_self _ _, ?_, [], [], rfl, by simp⟩
      intro x hx
      rcases List.mem_cons.mp hx with h | h
      · subst h; exact le_rfl
      · simp at h
  | cons y ys ih =>
      have hstep : pickBest acc (y :: ys)
          = pickBest (if y.confidence > acc.confidence then y else acc) ys := rfl
      by_cases hy : y.confidence > acc.confidence
      · rw [hstep, if_pos hy]
        obtain ⟨hmem, hmax, pre', post', hsplit, hpre⟩ := ih y
        refine ⟨List.mem_cons_of_mem acc hmem, ?_, acc :: pre', post', ?_, ?_⟩
        · intro x hx
          rcases List.mem_cons.mp hx with h | h
          · subst h
            exact le_of_lt (lt_of_lt_of_le hy (hmax y (List.mem_cons_self _ _)))
          · exact hmax x h
        · rw [List.cons_append, ← hsplit]
        · intro x hx
          rcases List.mem_cons.mp hx with h | h
          · subst h
            exact lt_of_lt_of_le hy (hmax y (List.mem_cons_self _ _))
          · exact hpre x h
      · rw [hstep, if_neg hy]
        have hyle : y.confidence ≤ acc.confidence := not_lt.mp hy
        obtain ⟨hmem, hmax, pre', post', hsplit, hpre⟩ := ih acc
        refine ⟨?_, ?_, ?_⟩
        · rcases List.mem_cons.mp hmem with h | h
          · rw [h]; exact List.mem_cons_self _ _
          · exact List.mem_cons_of_mem _ (List.mem_cons_of_mem _ h)
        · intro x hx
          rcases List.mem_cons.mp hx with h | h
          · subst h; exact hmax x (List.mem_cons_self _ _)
          · rcases List.mem_cons.mp h with h2 | h2
            · subst h2
              exact le_trans hyle (hmax acc (List.mem_cons_self _ _))
            · exact hmax x (List.mem_cons_of_mem _ h2)
        · cases pre' with
          | nil =>
              have h1 : acc = pickBest acc ys := by
                have h0 := hsplit
                rw [List.nil_append] at h0
                exact (List.cons_eq_cons.mp h0).1
              refine ⟨[], y :: ys, ?_, by simp⟩
              rw [List.nil_append, ← h1]
          | cons a pre'' =>
              have h1 : acc = a ∧ ys = pre'' ++ pickBest acc ys :: post' := by
                have h0 := hsplit
                rw [List.cons_append] at h0
                exact List.cons_eq_cons.mp h0
              refine ⟨acc :: y :: pre'', post', ?_, ?_⟩
              · conv_lhs => rw [h1.2]
                rfl
              · intro x hx
                have hacc : acc ∈ a :: pre'' := by
                  rw [← h1.1]; exact List.mem_cons_self _ _
                rcases List.mem_cons.mp hx with h | h
                · rw [h]
                  exact hpre acc hacc
                · rcases List.mem_cons.mp h with h2 | h2
                  · rw [h2]
                    exact lt_of_le_of_lt hyle (hpre acc hacc)
                  · exact hpre x (List.mem_cons_of_mem a h2)

/-- Selection facts transferred to bestByConfidence. -/
theorem bestByConfidence_spec (l : List TriResult) (r : TriResult)
    (h : bestByConfidence l = some r) :
    r ∈ l ∧ (∀ x ∈ l, x.confidence ≤ r.confidence)
      ∧ ∃ pre post, l = pre ++ r :: post ∧ ∀ x ∈ pre, x.confidence < r.confidence := by
  cases l with
  | nil => simp [bestByConfidence] at h
  | cons a rs =>
      have h2 : pickBest a rs = r := by
        simpa [bestByConfidence] using h
      rw [← h2]
      exact pickBest_spec rs a

/-- Claim C5, amended.  When at least two observations survive the filter and
the candidate list is nonempty, triangulate returns the single candidate of
maximal confidence, and on equal confidence the candidate computed earliest in
the evaluation order simple intersection, RANSAC, least squares is kept:
every candidate strictly before the returned one has strictly smaller
confidence. -/
theorem triangulate_best_first_on_ties (G : GeoOracle) (obs : List BearingObs)
    (h2 : ¬ obs.length < 2) (h3 : ¬ (filterObservations obs).length < 2)
    (r : TriResult)
    (h : bestByConfidence (triCandidates G (filterObservations obs)) = some r) :
    triangulate G obs = [r]
    ∧ r ∈ triCandidates G (filterObservations obs)
    ∧ (∀ x ∈ triCandidates G (filterObservations obs), x.confidence ≤ r.confidence)
    ∧ ∃ pre post, triCandidates G (filterObservations obs) = pre ++ r :: post
        ∧ ∀ x ∈ pre, x.confidence < r.confidence := by
  have hs := bestByConfidence_spec _ r h
  refine ⟨?_, hs.1, hs.2.1, hs.2.2⟩
  simp [triangulate, h2, h3, h]

/-- Witness for the amended C5. -/
theorem triangulate_best_first_on_ties_witness :
    triangulate oracle1 [obsA, obsB] = [resultSimpleAB]
    ∧ resultSimpleAB ∈ triCandidates oracle1 (filterObservations [obsA, obsB]) := by
  have h := triangulate_best_first_on_ties oracle1 [obsA, obsB]
    (by norm_num) (by rw [filter_obsAB]; norm_num) resultSimpleAB
    (by rw [filter_obsAB, cands_obsAB]; exact best_obsAB)
  exact ⟨h.1, h.2.1⟩

end Sentinel
